import Mathlib

/-!
Verification development for the context-identity and profile-detection core
of a cross-platform graphics-context library (source: `src/context.rs`).

The development shallowly embeds:
* the `ContextID` identity registry (a mutex-protected counter);
* the `ContextAttributeFlags` bitmask and `ContextAttributes` record;
* the runtime compatibility-profile detector
  `current_context_uses_compatibility_profile`, in both its desktop-GL and
  OpenGL-ES (`android`/`ohos`) variants.

Driver interaction is embedded as explicit state passing: the detector takes a
`GLDriver` description of the bound context together with the driver's latched
error code, and returns its boolean result, the error code latched after the
call, and the list of driver queries it issued.
-/

/-- Error code `GL_NO_ERROR` of the OpenGL specification (value 0). -/
def NO_ERROR : Nat := 0

/-- Parameter name `GL_CONTEXT_PROFILE_MASK` (value 0x9126 per the OpenGL
specification), queried by the detector. -/
def CONTEXT_PROFILE_MASK : Nat := 0x9126

/-- Bit `GL_CONTEXT_CORE_PROFILE_BIT` (value 0x1 per the OpenGL
specification). -/
def CONTEXT_CORE_PROFILE_BIT : Nat := 0x1

/-- Bit `GL_CONTEXT_COMPATIBILITY_PROFILE_BIT` (value 0x2 per the OpenGL
specification), tested by the detector against the returned profile mask. -/
def CONTEXT_COMPATIBILITY_PROFILE_BIT : Nat := 0x2

/-- Name of the legacy compatibility extension the detector looks for in the
supported-extensions set. -/
def GL_ARB_compatibility : String := "GL_ARB_compatibility"

/-- State of the graphics driver for the currently bound context, as observed
through the three read-only queries the detector issues.  `profileMaskValue` is
the bit pattern of the `i32` the profile-mask parameter query returns;
`profileMaskError` is the error code that query raises (`NO_ERROR` when it
succeeds); `extensions` is the supported-extensions set. -/
structure GLDriver where
  profileMaskValue : Nat
  profileMaskError : Nat
  extensions : List String
  deriving DecidableEq

/-- Driver queries the detector can issue, recorded as a trace. -/
inductive GLQuery where
  | getParameterI32 (pname : Nat)
  | getError
  | supportedExtensions
  deriving DecidableEq

/-- Embedding of `gl.get_parameter_i32(pname)`: returns the queried value and
the driver's new latched error code (OpenGL latches the first error: a raised
error is recorded only if no error is already latched). -/
def get_parameter_i32 (gl : GLDriver) (err : Nat) (pname : Nat) : Nat × Nat :=
  if pname = CONTEXT_PROFILE_MASK then
    (gl.profileMaskValue, if err = NO_ERROR then gl.profileMaskError else err)
  else
    (0, err)

/-- Embedding of `gl.get_error()`: returns the latched error code and resets
it to `NO_ERROR`. -/
def get_error (err : Nat) : Nat × Nat :=
  (err, NO_ERROR)

/-- Embedding of `gl.supported_extensions()`. -/
def supported_extensions (gl : GLDriver) : List String :=
  gl.extensions

/-- Embedding of the desktop-GL variant of
`current_context_uses_compatibility_profile` (the `cfg(not(android/ohos))`
item in `src/context.rs`): query `GL_CONTEXT_PROFILE_MASK`; if `get_error()`
reports `NO_ERROR` and the mask has the compatibility bit set, return `true`;
otherwise fall back to looking for `GL_ARB_compatibility` among the supported
extensions.  Returns `(result, latched error after the call, query trace)`. -/
def current_context_uses_compatibility_profile (gl : GLDriver) (err0 : Nat) :
    Bool × Nat × List GLQuery :=
  let r1 := get_parameter_i32 gl err0 CONTEXT_PROFILE_MASK
  let context_profile_mask := r1.1
  let r2 := get_error r1.2
  if r2.1 = NO_ERROR ∧ context_profile_mask &&& CONTEXT_COMPATIBILITY_PROFILE_BIT ≠ 0 then
    (true, r2.2, [GLQuery.getParameterI32 CONTEXT_PROFILE_MASK, GLQuery.getError])
  else
    ((supported_extensions gl).contains GL_ARB_compatibility, r2.2,
      [GLQuery.getParameterI32 CONTEXT_PROFILE_MASK, GLQuery.getError,
        GLQuery.supportedExtensions])

/-- Embedding of the OpenGL-ES variant of
`current_context_uses_compatibility_profile` (the `cfg(android/ohos)` item in
`src/context.rs`): constantly `false`, touching neither the driver state nor
the latched error.  Returns `(result, latched error after the call, query
trace)` like the desktop variant. -/
def current_context_uses_compatibility_profile_es (_gl : GLDriver) (err0 : Nat) :
    Bool × Nat × List GLQuery :=
  (false, err0, [])

/-- Embedding of `ContextID`: a newtype over the `u64` identifier value, with
structural (value) equality, as derived in the source. -/
structure ContextID where
  val : Nat
  deriving DecidableEq

/-- Initial contents of the static `CREATE_CONTEXT_MUTEX`: the mutex-protected
next-ID slot starts at `ContextID(0)`.  The mutex itself is modelled as the
value it protects, since allocations are serialized by it. -/
def CREATE_CONTEXT_MUTEX : ContextID :=
  ContextID.mk 0

/-- Modelled from the spec: the Identity Registry's "allocate next ID"
operation, whose code lives in the platform back ends outside this excerpt.
Under the lock it reads the next-ID slot, hands that value out, and advances
the slot by one (64-bit counter, overflow out of scope per the spec, embedded
here as wraparound modulo 2^64).  Returns `(allocated ID, new slot value)`. -/
def allocateContextID (next : ContextID) : ContextID × ContextID :=
  (next, ContextID.mk ((next.val + 1) % 2 ^ 64))

/-- Slot contents after `n` allocations from a fresh process, where the slot
starts at `CREATE_CONTEXT_MUTEX`'s initial value.  Because the lock brackets
every allocate-and-increment, any concurrent execution is equivalent to this
sequential one. -/
def allocState : Nat → ContextID
  | 0 => CREATE_CONTEXT_MUTEX
  | n + 1 => (allocateContextID (allocState n)).2

/-- The ID handed out by the `n`-th allocation (0-based). -/
def nthAllocatedID (n : Nat) : ContextID :=
  (allocateContextID (allocState n)).1

/-- The list of IDs handed out by the first `n` allocations. -/
def allocatedIDs (n : Nat) : List ContextID :=
  (List.range n).map nthAllocatedID

/-- Embedding of the `bitflags!`-generated `ContextAttributeFlags`: a newtype
over the `u8` bit pattern, with structural equality as derived in the
source. -/
structure ContextAttributeFlags where
  bits : Nat
  deriving DecidableEq

/-- Flag `ALPHA = 0x01`. -/
def ContextAttributeFlags.ALPHA : ContextAttributeFlags := ContextAttributeFlags.mk 0x01

/-- Flag `DEPTH = 0x02`. -/
def ContextAttributeFlags.DEPTH : ContextAttributeFlags := ContextAttributeFlags.mk 0x02

/-- Flag `STENCIL = 0x04`. -/
def ContextAttributeFlags.STENCIL : ContextAttributeFlags := ContextAttributeFlags.mk 0x04

/-- Flag `COMPATIBILITY_PROFILE = 0x08`. -/
def ContextAttributeFlags.COMPATIBILITY_PROFILE : ContextAttributeFlags :=
  ContextAttributeFlags.mk 0x08

/-- The empty flag set (`ContextAttributeFlags::empty()`). -/
def ContextAttributeFlags.empty : ContextAttributeFlags := ContextAttributeFlags.mk 0

/-- Flag union (`a | b` on the bitflags type): bitwise or of the patterns. -/
def ContextAttributeFlags.union (a b : ContextAttributeFlags) : ContextAttributeFlags :=
  ContextAttributeFlags.mk (a.bits ||| b.bits)

/-- Flag intersection (`a & b` on the bitflags type): bitwise and of the
patterns. -/
def ContextAttributeFlags.inter (a b : ContextAttributeFlags) : ContextAttributeFlags :=
  ContextAttributeFlags.mk (a.bits &&& b.bits)

/-- Flag difference (`a - b` on the bitflags type): bitwise and with the `u8`
complement of the second pattern. -/
def ContextAttributeFlags.difference (a b : ContextAttributeFlags) : ContextAttributeFlags :=
  ContextAttributeFlags.mk (a.bits &&& (0xff ^^^ b.bits))

/-- Membership of one of the 8 `u8` bit positions in a flag set. -/
def ContextAttributeFlags.mem (a : ContextAttributeFlags) (i : Fin 8) : Bool :=
  a.bits.testBit i.val

/-- Modelled from the spec: `GLVersion` lives in the source's `info` module,
outside this excerpt; per the spec it is a (major, minor) version pair with
structural equality and a `new` constructor. -/
structure GLVersion where
  major : Nat
  minor : Nat
  deriving DecidableEq

/-- Constructor `GLVersion::new(major, minor)`. -/
def GLVersion.new (major minor : Nat) : GLVersion :=
  GLVersion.mk major minor

/-- Embedding of `ContextAttributes`: a GL/GLES version paired with a flag
set, with structural equality as derived in the source. -/
structure ContextAttributes where
  version : GLVersion
  flags : ContextAttributeFlags
  deriving DecidableEq

/-- Embedding of `ContextAttributes::zeroed()`: version (0,0) and the empty
flag set. -/
def ContextAttributes.zeroed : ContextAttributes :=
  ContextAttributes.mk (GLVersion.new 0 0) ContextAttributeFlags.empty

/-! ## Helper lemmas -/

/-- The next-ID slot after `k` allocations holds `k`, as long as the 64-bit
counter has not wrapped. -/
theorem allocState_eq (k : Nat) (h : k < 2 ^ 64) : allocState k = ContextID.mk k := by
  induction k with
  | zero => rfl
  | succ n ih =>
    have hn : n < 2 ^ 64 := Nat.lt_of_succ_lt h
    simp [allocState, allocateContextID, ih hn, Nat.mod_eq_of_lt h]
    omega

/-- The `k`-th allocation hands out ID `k`, as long as the 64-bit counter has
not wrapped. -/
theorem nthAllocatedID_eq (k : Nat) (h : k < 2 ^ 64) : nthAllocatedID k = ContextID.mk k := by
  simp [nthAllocatedID, allocateContextID, allocState_eq k h]

/-! ## Claim theorems -/

/-- C1: on desktop GL, whenever the profile-mask query succeeds (the driver
latches no error) and the returned mask has the compatibility-profile bit set,
`current_context_uses_compatibility_profile` returns `true`, and its query
trace never touches the supported-extensions set. -/
theorem detector_profile_mask_success (gl : GLDriver) (err0 : Nat)
    (h0 : err0 = NO_ERROR)
    (hq : gl.profileMaskError = NO_ERROR)
    (hbit : gl.profileMaskValue &&& CONTEXT_COMPATIBILITY_PROFILE_BIT ≠ 0) :
    (current_context_uses_compatibility_profile gl err0).1 = true ∧
      GLQuery.supportedExtensions ∉ (current_context_uses_compatibility_profile gl err0).2.2 := by
  subst h0
  simp [current_context_uses_compatibility_profile, get_parameter_i32, get_error, hq, hbit]

theorem detector_profile_mask_success_witness :
    ((0 : Nat) = NO_ERROR ∧ (GLDriver.mk 2 0 []).profileMaskError = NO_ERROR ∧
        (GLDriver.mk 2 0 []).profileMaskValue &&& CONTEXT_COMPATIBILITY_PROFILE_BIT ≠ 0) ∧
      ((current_context_uses_compatibility_profile (GLDriver.mk 2 0 []) 0).1 = true ∧
        GLQuery.supportedExtensions ∉
          (current_context_uses_compatibility_profile (GLDriver.mk 2 0 []) 0).2.2) :=
  ⟨⟨rfl, rfl, by decide⟩,
    detector_profile_mask_success (GLDriver.mk 2 0 []) 0 rfl rfl (by decide)⟩

/-- C2: on desktop GL, whenever the profile-mask query reports a driver error,
`current_context_uses_compatibility_profile` falls back to the
supported-extensions set and returns `true` iff that set contains
`"GL_ARB_compatibility"`. -/
theorem detector_error_fallback (gl : GLDriver) (err0 : Nat)
    (h0 : err0 = NO_ERROR)
    (hq : gl.profileMaskError ≠ NO_ERROR) :
    (current_context_uses_compatibility_profile gl err0).1 =
        (supported_extensions gl).contains GL_ARB_compatibility ∧
      ((current_context_uses_compatibility_profile gl err0).1 = true ↔
        GL_ARB_compatibility ∈ supported_extensions gl) := by
  subst h0
  simp [current_context_uses_compatibility_profile, get_parameter_i32, get_error, hq,
    supported_extensions]

theorem detector_error_fallback_witness :
    ((0 : Nat) = NO_ERROR ∧
        (GLDriver.mk 0 1280 [GL_ARB_compatibility]).profileMaskError ≠ NO_ERROR) ∧
      ((current_context_uses_compatibility_profile
            (GLDriver.mk 0 1280 [GL_ARB_compatibility]) 0).1 =
          (supported_extensions (GLDriver.mk 0 1280 [GL_ARB_compatibility])).contains
            GL_ARB_compatibility ∧
        ((current_context_uses_compatibility_profile
              (GLDriver.mk 0 1280 [GL_ARB_compatibility]) 0).1 = true ↔
          GL_ARB_compatibility ∈
            supported_extensions (GLDriver.mk 0 1280 [GL_ARB_compatibility]))) :=
  ⟨⟨rfl, by decide⟩,
    detector_error_fallback (GLDriver.mk 0 1280 [GL_ARB_compatibility]) 0 rfl (by decide)⟩

/-- C3: on OpenGL-ES-only platforms, `current_context_uses_compatibility_profile`
returns `false` for every driver state and every latched error code, leaves the
latched error untouched, and issues no driver query at all (empty trace). -/
theorem es_detector_constant_false (gl : GLDriver) (err0 : Nat) :
    current_context_uses_compatibility_profile_es gl err0 = (false, err0, []) :=
  rfl

/-- C8: the desktop detector always returns a plain boolean and consumes the
driver error raised by the profile-mask query: on every input the latched
error code after the call is `NO_ERROR`, so the query's error does not leak to
the caller. -/
theorem detector_consumes_driver_error (gl : GLDriver) (err0 : Nat) :
    ((current_context_uses_compatibility_profile gl err0).1 = true ∨
        (current_context_uses_compatibility_profile gl err0).1 = false) ∧
      (current_context_uses_compatibility_profile gl err0).2.1 = NO_ERROR := by
  constructor
  · exact Bool.eq_false_or_eq_true (current_context_uses_compatibility_profile gl err0).1
  · simp only [current_context_uses_compatibility_profile, get_error]
    split <;> rfl

/-- C4 counterexample: a driver whose profile-mask query succeeds with mask 0
(neither profile bit set) while the extension set contains
`"GL_ARB_compatibility"` makes the desktop detector return `true`, not
`false`: the code falls back to extension inspection instead of treating the
context as not-compatibility outright. -/
theorem detector_neither_bit_counterexample :
    (GLDriver.mk 0 0 [GL_ARB_compatibility]).profileMaskError = NO_ERROR ∧
      (GLDriver.mk 0 0 [GL_ARB_compatibility]).profileMaskValue &&&
          CONTEXT_CORE_PROFILE_BIT = 0 ∧
      (GLDriver.mk 0 0 [GL_ARB_compatibility]).profileMaskValue &&&
          CONTEXT_COMPATIBILITY_PROFILE_BIT = 0 ∧
      (current_context_uses_compatibility_profile
          (GLDriver.mk 0 0 [GL_ARB_compatibility]) 0).1 = true := by
  refine ⟨rfl, rfl, rfl, ?_⟩
  decide

/-- C4 (amended): on desktop GL, when the profile-mask query succeeds but the
returned mask has neither profile bit set, the detector falls back to
extension inspection: it returns `true` iff the supported-extensions set
contains `"GL_ARB_compatibility"`, and in particular returns `false` whenever
that extension is absent. -/
theorem detector_neither_bit_falls_back (gl : GLDriver) (err0 : Nat)
    (h0 : err0 = NO_ERROR)
    (hq : gl.profileMaskError = NO_ERROR)
    (_hcore : gl.profileMaskValue &&& CONTEXT_CORE_PROFILE_BIT = 0)
    (hcompat : gl.profileMaskValue &&& CONTEXT_COMPATIBILITY_PROFILE_BIT = 0) :
    (current_context_uses_compatibility_profile gl err0).1 =
      (supported_extensions gl).contains GL_ARB_compatibility := by
  subst h0
  simp [current_context_uses_compatibility_profile, get_parameter_i32, get_error, hq, hcompat]

theorem detector_neither_bit_falls_back_witness :
    ((0 : Nat) = NO_ERROR ∧ (GLDriver.mk 0 0 []).profileMaskError = NO_ERROR ∧
        (GLDriver.mk 0 0 []).profileMaskValue &&& CONTEXT_CORE_PROFILE_BIT = 0 ∧
        (GLDriver.mk 0 0 []).profileMaskValue &&& CONTEXT_COMPATIBILITY_PROFILE_BIT = 0) ∧
      (current_context_uses_compatibility_profile (GLDriver.mk 0 0 []) 0).1 =
        (supported_extensions (GLDriver.mk 0 0 [])).contains GL_ARB_compatibility :=
  ⟨⟨rfl, rfl, rfl, rfl⟩,
    detector_neither_bit_falls_back (GLDriver.mk 0 0 []) 0 rfl rfl rfl rfl⟩

/-- C5: any sequence of allocations (serialized by the registry's lock, so
concurrent calls interleave as some sequential order) hands out pairwise
distinct `ContextID` values while the 64-bit counter has not wrapped. -/
theorem allocatedIDs_pairwise_distinct (n : Nat) (h : n ≤ 2 ^ 64) :
    (allocatedIDs n).Pairwise (· ≠ ·) := by
  unfold allocatedIDs
  refine List.pairwise_map.mpr ?_
  refine (List.pairwise_lt_range n).imp_of_mem ?_
  intro a b ha hb hlt
  have ha' : a < 2 ^ 64 := Nat.lt_of_lt_of_le (List.mem_range.mp ha) h
  have hb' : b < 2 ^ 64 := Nat.lt_of_lt_of_le (List.mem_range.mp hb) h
  rw [nthAllocatedID_eq a ha', nthAllocatedID_eq b hb']
  intro he
  exact Nat.ne_of_lt hlt (congrArg ContextID.val he)

theorem allocatedIDs_pairwise_distinct_witness :
    (3 : Nat) ≤ 2 ^ 64 ∧ (allocatedIDs 3).Pairwise (· ≠ ·) :=
  ⟨by norm_num, allocatedIDs_pairwise_distinct 3 (by norm_num)⟩

/-- C10: the mutex-protected next-ID slot is initialized to `ContextID(0)`, so
in a fresh process the first allocated ID is 0 and, while the 64-bit counter
has not wrapped, successive IDs strictly ascend from 0. -/
theorem registry_counter_starts_at_zero :
    CREATE_CONTEXT_MUTEX = ContextID.mk 0 ∧
      nthAllocatedID 0 = ContextID.mk 0 ∧
      ∀ i : Nat, i + 1 < 2 ^ 64 →
        (nthAllocatedID i).val < (nthAllocatedID (i + 1)).val := by
  refine ⟨rfl, rfl, ?_⟩
  intro i hi
  rw [nthAllocatedID_eq i (Nat.lt_of_succ_lt hi), nthAllocatedID_eq (i + 1) hi]
  exact Nat.lt_succ_self i

theorem registry_counter_starts_at_zero_witness :
    (7 : Nat) + 1 < 2 ^ 64 ∧ (nthAllocatedID 7).val < (nthAllocatedID 8).val :=
  ⟨by norm_num, registry_counter_starts_at_zero.2.2 7 (by norm_num)⟩

/-- C6: flag union is associative and commutative with the empty set as left
identity, and intersection and difference obey standard set algebra:
intersection is associative and commutative, and on each of the 8 bit
positions union, intersection and difference act as set union, set
intersection and set difference of the membership predicates. -/
theorem contextAttributeFlags_set_algebra (A B C : ContextAttributeFlags) :
    (A.union B).union C = A.union (B.union C) ∧
      A.union B = B.union A ∧
      ContextAttributeFlags.empty.union A = A ∧
      (A.inter B).inter C = A.inter (B.inter C) ∧
      A.inter B = B.inter A ∧
      (∀ i : Fin 8, (A.union B).mem i = (A.mem i || B.mem i)) ∧
      (∀ i : Fin 8, (A.inter B).mem i = (A.mem i && B.mem i)) ∧
      (∀ i : Fin 8, (A.difference B).mem i = (A.mem i && !(B.mem i))) := by
  have h255 : (0xff : Nat) = 2 ^ 8 - 1 := by norm_num
  refine ⟨?_, ?_, ?_, ?_, ?_, ?_, ?_, ?_⟩
  · exact congrArg ContextAttributeFlags.mk (Nat.or_assoc A.bits B.bits C.bits)
  · exact congrArg ContextAttributeFlags.mk (Nat.or_comm A.bits B.bits)
  · cases A with
    | mk bits => exact congrArg ContextAttributeFlags.mk (Nat.zero_or bits)
  · exact congrArg ContextAttributeFlags.mk (Nat.and_assoc A.bits B.bits C.bits)
  · exact congrArg ContextAttributeFlags.mk (Nat.and_comm A.bits B.bits)
  · intro i
    simp [ContextAttributeFlags.mem, ContextAttributeFlags.union]
  · intro i
    simp [ContextAttributeFlags.mem, ContextAttributeFlags.inter]
  · intro i
    have hlt : i.val < 8 := i.isLt
    show (A.bits &&& (0xff ^^^ B.bits)).testBit i.val =
      (A.bits.testBit i.val && !(B.bits.testBit i.val))
    rw [Nat.testBit_and, h255, Nat.testBit_xor, Nat.testBit_two_pow_sub_one,
      decide_eq_true hlt]
    cases A.bits.testBit i.val <;> cases B.bits.testBit i.val <;> rfl

/-- C7: `ContextAttributes::zeroed()` has version (0,0) and the empty flag
set, and differs from every `ContextAttributes` value built with a nonzero
version. -/
theorem zeroed_sentinel_distinct :
    ContextAttributes.zeroed.version = GLVersion.new 0 0 ∧
      ContextAttributes.zeroed.flags = ContextAttributeFlags.empty ∧
      ∀ (v : GLVersion) (f : ContextAttributeFlags),
        v ≠ GLVersion.new 0 0 → ContextAttributes.mk v f ≠ ContextAttributes.zeroed :=
  ⟨rfl, rfl, fun _ _ hv he => hv (congrArg ContextAttributes.version he)⟩

theorem zeroed_sentinel_distinct_witness :
    GLVersion.new 3 2 ≠ GLVersion.new 0 0 ∧
      ContextAttributes.mk (GLVersion.new 3 2) ContextAttributeFlags.empty ≠
        ContextAttributes.zeroed :=
  ⟨by decide,
    zeroed_sentinel_distinct.2.2 (GLVersion.new 3 2) ContextAttributeFlags.empty (by decide)⟩

/-- C9: equality on `ContextAttributes` is structural, so a caller-built value
with version (0,0) and empty flags is equal to the zeroed sentinel — the
sentinel is not a distinct tagged state. -/
theorem zeroed_structural_equality (v : GLVersion) (f : ContextAttributeFlags) :
    ContextAttributes.mk v f = ContextAttributes.zeroed ↔
      (v = GLVersion.new 0 0 ∧ f = ContextAttributeFlags.empty) := by
  simp [ContextAttributes.zeroed]
